import Mathlib

/-!
Verification of the visibility-culling and batched-mesh subsystem of
GaiaWorld/pi_scene.  Scalars that the Rust code stores as `f32` are modelled
as exact rationals (the claims concern control flow, copying and comparisons,
not rounding), machine integers (`u32`, `u16`, `usize`) as `Nat`, and Rust
vectors as Lean lists.  Functions from the crate that live in files not
available here (`bounding_box.rs`, `bounding_sphere.rs`, `lib.rs`,
`error.rs`) are modelled from the specification and marked as such in their
doc comments.  The square root used by the external math crate when deriving
sphere radii and axis scales is threaded through as an uninterpreted
parameter `sq : ℚ → ℚ`; no claim depends on its values.
-/

namespace PiScene

/-- Three-component vector of the external math crate (`pi_scene_math`),
with rational coordinates standing in for `f32`. -/
structure Vector3 where
  x : ℚ
  y : ℚ
  z : ℚ
  deriving DecidableEq, Repr

/-- 4×4 matrix of the external math crate, row-major entries. -/
structure Matrix where
  m00 : ℚ
  m01 : ℚ
  m02 : ℚ
  m03 : ℚ
  m10 : ℚ
  m11 : ℚ
  m12 : ℚ
  m13 : ℚ
  m20 : ℚ
  m21 : ℚ
  m22 : ℚ
  m23 : ℚ
  m30 : ℚ
  m31 : ℚ
  m32 : ℚ
  m33 : ℚ
  deriving DecidableEq, Repr

def Matrix.identity : Matrix :=
  ⟨1, 0, 0, 0, 0, 1, 0, 0, 0, 0, 1, 0, 0, 0, 0, 1⟩

/-- First three entries of row 0, as extracted by
`world.slice((0, 0), (1, 3))` in `BoundingInfo::reset`. -/
def Matrix.row0 (m : Matrix) : Vector3 := ⟨m.m00, m.m01, m.m02⟩

/-- First three entries of row 1 (`world.slice((1, 0), (1, 3))`). -/
def Matrix.row1 (m : Matrix) : Vector3 := ⟨m.m10, m.m11, m.m12⟩

/-- First three entries of row 2 (`world.slice((2, 0), (1, 3))`). -/
def Matrix.row2 (m : Matrix) : Vector3 := ⟨m.m20, m.m21, m.m22⟩

/-- Affine transform of a point by a world matrix (external math crate). -/
def Matrix.transformCoordinates (m : Matrix) (v : Vector3) : Vector3 :=
  ⟨m.m00 * v.x + m.m01 * v.y + m.m02 * v.z + m.m03,
   m.m10 * v.x + m.m11 * v.y + m.m12 * v.z + m.m13,
   m.m20 * v.x + m.m21 * v.y + m.m22 * v.z + m.m23⟩

/-- Componentwise minimum (the `TMinimizeMaximize` trait of the math crate). -/
def Vector3.minimize (a b : Vector3) : Vector3 :=
  ⟨min a.x b.x, min a.y b.y, min a.z b.z⟩

/-- Componentwise maximum (the `TMinimizeMaximize` trait of the math crate). -/
def Vector3.maximize (a b : Vector3) : Vector3 :=
  ⟨max a.x b.x, max a.y b.y, max a.z b.z⟩

/-- Squared Euclidean norm. -/
def Vector3.normSq (v : Vector3) : ℚ := v.x * v.x + v.y * v.y + v.z * v.z

/-- Squared distance between two points. -/
def Vector3.distanceSq (a b : Vector3) : ℚ :=
  Vector3.normSq ⟨b.x - a.x, b.y - a.y, b.z - a.z⟩

/-- Midpoint of two points. -/
def Vector3.center (a b : Vector3) : Vector3 :=
  ⟨(a.x + b.x) / 2, (a.y + b.y) / 2, (a.z + b.z) / 2⟩

/-- A plane of the external math crate: normal plus distance, defining the
half-space of points with nonnegative signed distance. -/
structure Plane where
  normal : Vector3
  d : ℚ
  deriving DecidableEq, Repr

/-- Signed distance of a point from the plane. -/
def Plane.dotCoordinate (p : Plane) (v : Vector3) : ℚ :=
  p.normal.x * v.x + p.normal.y * v.y + p.normal.z * v.z + p.d

/-- The six planes of a camera frustum (near/far/left/right/top/bottom),
from the external math crate. -/
structure FrustumPlanes where
  near : Plane
  far : Plane
  left : Plane
  right : Plane
  top : Plane
  bottom : Plane
  deriving DecidableEq, Repr

/-- The six frustum planes as a list, in declaration order. -/
def FrustumPlanes.list (f : FrustumPlanes) : List Plane :=
  [f.near, f.far, f.left, f.right, f.top, f.bottom]

/-- Maximum axis scale of a world matrix: the square root of the largest
squared row norm, with the square root given by the parameter `sq`.
Used only when deriving world-space sphere radii. -/
def Matrix.maxScaleOnAxis (sq : ℚ → ℚ) (m : Matrix) : ℚ :=
  sq (max (max m.row0.normSq m.row1.normSq) m.row2.normSq)

/-- Modelled from the spec: `bounding_box.rs` is not in src/.  §3: an
axis-aligned box in world space owning `minimum`, `maximum`, and the 8
transformed corner points, derived from local min/max and a world
transform. -/
structure BoundingBox where
  minimum : Vector3
  maximum : Vector3
  vectors_world : List Vector3
  deriving DecidableEq, Repr

/-- The eight corners of the local axis-aligned box spanned by `mn`, `mx`. -/
def BoundingBox.corners_local (mn mx : Vector3) : List Vector3 :=
  [⟨mn.x, mn.y, mn.z⟩, ⟨mx.x, mn.y, mn.z⟩, ⟨mn.x, mx.y, mn.z⟩, ⟨mx.x, mx.y, mn.z⟩,
   ⟨mn.x, mn.y, mx.z⟩, ⟨mx.x, mn.y, mx.z⟩, ⟨mn.x, mx.y, mx.z⟩, ⟨mx.x, mx.y, mx.z⟩]

/-- Modelled from the spec: `bounding_box.rs` is not in src/.  §4.1 `reset`
recomputes the box from scratch: the world corners are the transformed local
corners, and world min/max are their componentwise extremes (corners are
never partially stale). -/
def BoundingBox.reset (_bb : BoundingBox) (mn mx : Vector3) (w : Matrix) :
    BoundingBox :=
  let corners := (BoundingBox.corners_local mn mx).map w.transformCoordinates
  match corners with
  | [] => ⟨mn, mx, []⟩
  | c :: rest =>
      ⟨rest.foldl Vector3.minimize c, rest.foldl Vector3.maximize c, corners⟩

/-- Modelled from the spec: `bounding_box.rs` is not in src/.  §4.1 box
test: for each plane, test all 8 corners; if all 8 are on the negative side
of any single plane the box is outside; a straddling box counts as
intersecting (visible). -/
def BoundingBox.is_in_frustum (bb : BoundingBox) (f : FrustumPlanes) : Bool :=
  !(f.list.any fun p => bb.vectors_world.all fun c => p.dotCoordinate c < 0)

/-- Modelled from the spec: `bounding_sphere.rs` is not in src/.  §3: a
world-space center and radius, derived from the local extents (kept here so
`update` can rederive the world fields). -/
structure BoundingSphere where
  center_local : Vector3
  radius_local : ℚ
  center : Vector3
  radius : ℚ
  deriving DecidableEq, Repr

/-- Modelled from the spec: `bounding_sphere.rs` is not in src/.  §4.1
`update(world)` recomputes only the world-space fields: the center is the
local center transformed by `world`, the radius the local radius scaled by
the matrix's maximum axis scale. -/
def BoundingSphere.update (sq : ℚ → ℚ) (s : BoundingSphere) (w : Matrix) :
    BoundingSphere :=
  { s with
    center := w.transformCoordinates s.center_local
    radius := s.radius_local * w.maxScaleOnAxis sq }

/-- Modelled from the spec: `bounding_sphere.rs` is not in src/.  §4.1
`reset` recomputes from scratch: the local center is the midpoint of the
extents, the local radius half the diagonal of the local extents, and the
world fields are rederived as in `update`. -/
def BoundingSphere.reset (sq : ℚ → ℚ) (s : BoundingSphere) (mn mx : Vector3)
    (w : Matrix) : BoundingSphere :=
  BoundingSphere.update sq
    { s with
      center_local := Vector3.center mn mx
      radius_local := sq (Vector3.distanceSq mn mx) / 2 } w

/-- Modelled from the spec: `bounding_sphere.rs` is not in src/.  §4.1
sphere test: for each of the 6 planes compute the signed distance of the
center; if the distance is below the negated radius for any plane the sphere
is fully outside. -/
def BoundingSphere.is_in_frustum (s : BoundingSphere) (f : FrustumPlanes) :
    Bool :=
  !(f.list.any fun p => p.dotCoordinate s.center < -s.radius)

/-- `ECullingStrategy` from `culling/mod.rs`. -/
inductive ECullingStrategy where
  | Optimistic
  | STANDARD
  deriving DecidableEq, Repr

/-- `BoundingInfo` from `culling/mod.rs`. -/
structure BoundingInfo where
  minimum : Vector3
  maximum : Vector3
  bounding_box : BoundingBox
  bounding_sphere : BoundingSphere
  direction0 : Vector3
  direction1 : Vector3
  direction2 : Vector3
  culling_strategy : ECullingStrategy
  deriving DecidableEq, Repr

/-- `BoundingInfo::reset` from `culling/mod.rs`: copies the extents,
resets box and sphere from them, and caches the first three entries of the
world matrix rows 0..2 as direction vectors. -/
def BoundingInfo.reset (sq : ℚ → ℚ) (b : BoundingInfo) (mn mx : Vector3)
    (w : Matrix) : BoundingInfo :=
  { b with
    minimum := mn
    maximum := mx
    bounding_box := b.bounding_box.reset mn mx w
    bounding_sphere := BoundingSphere.reset sq b.bounding_sphere mn mx w
    direction0 := w.row0
    direction1 := w.row1
    direction2 := w.row2 }

/-- `BoundingInfo::update` from `culling/mod.rs`: resets the box from the
cached extents and updates the sphere; nothing else is touched. -/
def BoundingInfo.update (sq : ℚ → ℚ) (b : BoundingInfo) (w : Matrix) :
    BoundingInfo :=
  { b with
    bounding_box := b.bounding_box.reset b.minimum b.maximum w
    bounding_sphere := BoundingSphere.update sq b.bounding_sphere w }

/-- `BoundingInfo::is_in_frustum` from `culling/mod.rs`: if the sphere test
fails return false, otherwise return the box test result.  Note that the
source never reads `culling_strategy`. -/
def BoundingInfo.is_in_frustum (b : BoundingInfo) (f : FrustumPlanes) : Bool :=
  if !(b.bounding_sphere.is_in_frustum f) then
    false
  else
    b.bounding_box.is_in_frustum f

/-- `check_boundings` from `culling/mod.rs`: the source pushes
`boundings[index].is_in_frustum(frustum_planes)` for `index in 0..len` into
a fresh vector and assigns it to `result`, which is exactly a map. -/
def check_boundings (boundings : List BoundingInfo) (f : FrustumPlanes) :
    List Bool :=
  boundings.map fun b => b.is_in_frustum f

/-! Concrete configuration refuting claim C1: a sphere that intersects every
frustum half-space while the box lies entirely outside the near plane. -/

/-- The near plane of the refuting frustum: the half-space `x ≥ 0`. -/
def cexPlaneX : Plane := ⟨⟨1, 0, 0⟩, 0⟩

/-- A degenerate plane whose signed distance is 1 everywhere, so it never
rejects anything. -/
def cexPlaneTrivial : Plane := ⟨⟨0, 0, 0⟩, 1⟩

/-- The refuting frustum: one active plane, five never-rejecting ones. -/
def cexFrustum : FrustumPlanes :=
  ⟨cexPlaneX, cexPlaneTrivial, cexPlaneTrivial, cexPlaneTrivial,
   cexPlaneTrivial, cexPlaneTrivial⟩

/-- The point `(-1, 0, 0)`, at signed distance −1 from the near plane. -/
def cexCorner : Vector3 := ⟨-1, 0, 0⟩

/-- A box whose eight world corners are all at `(-1, 0, 0)`: every corner is
strictly outside the near plane, so the box test rejects it. -/
def cexBox : BoundingBox := ⟨cexCorner, cexCorner, List.replicate 8 cexCorner⟩

/-- A sphere of radius 2 at `(-1, 0, 0)`: its center distance −1 is not below
−2 for any plane, so the sphere test passes. -/
def cexSphere : BoundingSphere := ⟨cexCorner, 2, cexCorner, 2⟩

/-- A `BoundingInfo` whose `culling_strategy` is `Optimistic`, whose sphere
passes the frustum test and whose box fails it. -/
def cexInfo : BoundingInfo :=
  ⟨cexCorner, cexCorner, cexBox, cexSphere, ⟨0, 0, 0⟩, ⟨0, 0, 0⟩, ⟨0, 0, 0⟩,
   ECullingStrategy.Optimistic⟩

/-! ## Mesh (`pi_scene_spine/src/mesh.rs`) -/

/-- `EShader` from `shaders.rs` (not in src/); its three variants are fixed
by the exhaustive matches in `mesh.rs`. -/
inductive EShader where
  | Colored
  | ColoredTextured
  | TwoColoredTextured
  deriving DecidableEq, Repr

/-- `EVertexAttribute` from `mesh.rs`. -/
inductive EVertexAttribute where
  | Position
  | Textcoords
  | Color
  | Color2
  deriving DecidableEq, Repr

/-- `EVertexDataFormat` from the external `pi_scene_geometry` crate; only
`F32` is used here. -/
inductive EVertexDataFormat where
  | F32
  deriving DecidableEq, Repr

/-- `VertexAttribute` from `mesh.rs`. -/
structure VertexAttribute where
  name : EVertexAttribute
  ty : EVertexDataFormat
  num_elements : ℕ
  deriving DecidableEq, Repr

/-- `VertexAttribute::elements`: sum of the element counts. -/
def VertexAttribute.elements (attributes : List VertexAttribute) : ℕ :=
  attributes.foldl (fun result v => result + v.num_elements) 0

/-- `VertexAttribute::position_2`. -/
def VertexAttribute.position_2 : VertexAttribute :=
  ⟨EVertexAttribute.Position, EVertexDataFormat.F32, 2⟩

/-- `VertexAttribute::position_3`. -/
def VertexAttribute.position_3 : VertexAttribute :=
  ⟨EVertexAttribute.Position, EVertexDataFormat.F32, 3⟩

/-- `VertexAttribute::texcoords`. -/
def VertexAttribute.texcoords : VertexAttribute :=
  ⟨EVertexAttribute.Textcoords, EVertexDataFormat.F32, 2⟩

/-- `VertexAttribute::color`. -/
def VertexAttribute.color : VertexAttribute :=
  ⟨EVertexAttribute.Color, EVertexDataFormat.F32, 4⟩

/-- `VertexAttribute::color2`. -/
def VertexAttribute.color2 : VertexAttribute :=
  ⟨EVertexAttribute.Color2, EVertexDataFormat.F32, 4⟩

/-- The external material system (`pi_scene_material`), §6: consumed only
through `bind_groups()`, an ordered sequence of bind-group handles, which we
model as numeric handles. -/
structure Material where
  bind_groups : List ℕ
  deriving DecidableEq, Repr

/-- `Material::default()` of the external crate: no bind groups yet. -/
def Material.default : Material := ⟨[]⟩

/-- Modelled from the spec: `error.rs` is not in src/; `mesh.rs` returns the
variant named here, the spec (§7) calls it `CapacityExceeded`. -/
inductive ESpineError where
  | MeshCanntStoreMoreThanMaxVertices
  deriving DecidableEq, Repr

/-- The external GPU device (§6), modelled as a fresh-handle counter:
`create_buffer` hands out the next numeric buffer handle. -/
structure Device where
  next_buffer : ℕ
  deriving DecidableEq, Repr

/-- Buffer creation on the device: the fresh handle plus the bumped device. -/
def Device.create_buffer (d : Device) : ℕ × Device :=
  (d.next_buffer, ⟨d.next_buffer + 1⟩)

/-- Observable GPU operations issued by mesh writes: creating a buffer with
a given handle, or writing in place to an existing handle. -/
inductive GpuOp where
  | createBuffer (b : ℕ)
  | writeBuffer (b : ℕ)
  deriving DecidableEq, Repr

/-- Modelled from the spec: `vec_set` lives in `lib.rs`, not in src/; §4.4:
copies `src` into the backing storage starting at `offset`, leaving the rest
of the target in place. -/
def vec_set {α : Type} (target : List α) (src : List α) (offset : ℕ) :
    List α :=
  target.take offset ++ src ++ target.drop (offset + src.length)

/-- `Mesh` from `mesh.rs`.  `vertices`/`indices` are the fixed-capacity
backing stores (capacity = list length), `vertices_length`/`indices_length`
the logical lengths, and the buffer fields the optional GPU handles. -/
structure Mesh where
  shader : Option EShader
  material : Material
  vertices : List ℚ
  indices : List ℕ
  attributes : List VertexAttribute
  num_vertices : ℕ
  num_indices : ℕ
  dirty_vertices : Bool
  dirty_indices : Bool
  vertices_length : ℕ
  indices_length : ℕ
  vertices_buffer : Option ℕ
  indices_buffer : Option ℕ
  element_per_vertex : ℕ
  deriving DecidableEq, Repr

/-- `Mesh::new`. -/
def Mesh.new : Mesh :=
  { shader := none
    material := Material.default
    vertices := []
    indices := []
    attributes := []
    num_vertices := 0
    num_indices := 0
    dirty_vertices := false
    dirty_indices := false
    vertices_length := 0
    indices_length := 0
    vertices_buffer := none
    indices_buffer := none
    element_per_vertex := 0 }

/-- The attribute layout `Mesh::init` selects for each shader variant. -/
def Mesh.attributes_for (shader : EShader) : List VertexAttribute :=
  match shader with
  | EShader.Colored =>
      [VertexAttribute.position_2, VertexAttribute.color]
  | EShader.ColoredTextured =>
      [VertexAttribute.position_2, VertexAttribute.color,
       VertexAttribute.texcoords]
  | EShader.TwoColoredTextured =>
      [VertexAttribute.position_2, VertexAttribute.color,
       VertexAttribute.texcoords, VertexAttribute.color2]

/-- `Mesh::init`.  `maxVertices` is the crate constant `MAX_VERTICES` from
`lib.rs` (not in src/, so kept as a parameter); `initMat` is
`Mesh::init_material`, which only touches the external material system.
Reallocation happens only when the new layout's element count exceeds the
mesh's current `element_per_vertex`; both branches then record the layout,
clear the dirty flags and zero the logical lengths. -/
def Mesh.init (maxVertices : ℕ) (initMat : EShader → Material → Material)
    (m : Mesh) (shader : EShader) : Mesh :=
  let material :=
    match m.shader with
    | some v => if v = shader then m.material else initMat shader m.material
    | none => initMat shader m.material
  let attributes := Mesh.attributes_for shader
  let element_per_vertex := VertexAttribute.elements attributes
  let m1 := { m with material := material, attributes := attributes }
  let m2 :=
    if element_per_vertex > m1.element_per_vertex then
      { m1 with
        num_vertices := maxVertices * element_per_vertex
        num_indices := maxVertices * 3
        vertices := List.replicate (maxVertices * element_per_vertex) (0 : ℚ)
        indices := List.replicate (maxVertices * 3) (0 : ℕ)
        vertices_buffer := none
        indices_buffer := none }
    else m1
  { m2 with
    element_per_vertex := element_per_vertex
    shader := some shader
    dirty_vertices := false
    dirty_indices := false
    vertices_length := 0
    indices_length := 0 }

/-- `Mesh::set_vertices_length`: marks dirty and sets the logical length,
with no capacity check. -/
def Mesh.set_vertices_length (m : Mesh) (length : ℕ) : Mesh :=
  { m with dirty_vertices := true, vertices_length := length }

/-- `Mesh::set_indices_length`: marks dirty and sets the logical length,
with no capacity check. -/
def Mesh.set_indices_length (m : Mesh) (length : ℕ) : Mesh :=
  { m with dirty_indices := true, indices_length := length }

/-- Result of a mesh write: the mesh and device afterwards, the GPU
operations issued, and the Rust `Result<(), ESpineError>`. -/
structure MeshSetResult where
  mesh : Mesh
  device : Device
  ops : List GpuOp
  res : Except ESpineError Unit

/-- `Mesh::set_vertices`: marks dirty first, then errors when the data is
longer than the backing store; otherwise copies at offset 0, records the
logical length, and creates the GPU buffer on first write or writes it in
place afterwards. -/
def Mesh.set_vertices (m : Mesh) (dev : Device) (data : List ℚ) :
    MeshSetResult :=
  let m1 := { m with dirty_vertices := true }
  if data.length > m1.vertices.length then
    ⟨m1, dev, [], Except.error ESpineError.MeshCanntStoreMoreThanMaxVertices⟩
  else
    let m2 := { m1 with
      vertices := vec_set m1.vertices data 0
      vertices_length := data.length }
    match m2.vertices_buffer with
    | none =>
        let (b, dev2) := dev.create_buffer
        ⟨{ m2 with vertices_buffer := some b }, dev2,
         [GpuOp.createBuffer b], Except.ok ()⟩
    | some b => ⟨m2, dev, [GpuOp.writeBuffer b], Except.ok ()⟩

/-- `Mesh::set_indices`: mirror of `set_vertices` for the index store. -/
def Mesh.set_indices (m : Mesh) (dev : Device) (data : List ℕ) :
    MeshSetResult :=
  let m1 := { m with dirty_indices := true }
  if data.length > m1.indices.length then
    ⟨m1, dev, [], Except.error ESpineError.MeshCanntStoreMoreThanMaxVertices⟩
  else
    let m2 := { m1 with
      indices := vec_set m1.indices data 0
      indices_length := data.length }
    match m2.indices_buffer with
    | none =>
        let (b, dev2) := dev.create_buffer
        ⟨{ m2 with indices_buffer := some b }, dev2,
         [GpuOp.createBuffer b], Except.ok ()⟩
    | some b => ⟨m2, dev, [GpuOp.writeBuffer b], Except.ok ()⟩

/-- Render-pass commands recorded by `Mesh::draw`, mirroring the `wgpu`
calls it makes. -/
inductive RenderCmd where
  | setBindGroup (index : ℕ) (bind : ℕ)
  | setVertexBuffer (slot : ℕ) (buffer : ℕ)
  | setIndexBuffer (buffer : ℕ)
  | drawIndexed (indexStart indexEnd instances : ℕ)
  deriving DecidableEq, Repr

/-- The bind-group commands of `Mesh::draw`: the source walks the material's
bind groups with a counter starting at 0, issuing `set_bind_group(index, _)`
and incrementing. -/
def bindGroupCmds (index : ℕ) (binds : List ℕ) : List RenderCmd :=
  match binds with
  | [] => []
  | b :: rest => RenderCmd.setBindGroup index b :: bindGroupCmds (index + 1) rest

/-- `Mesh::draw`: binds the material's bind groups from index 0, then the
vertex and index buffers (`unwrap` panics — modelled as `none` — when either
was never created), and issues `draw_indexed(0..indices_length, 0, 0..1)`. -/
def Mesh.draw (m : Mesh) : Option (List RenderCmd) :=
  match m.vertices_buffer, m.indices_buffer with
  | some vb, some ib =>
      some (bindGroupCmds 0 m.material.bind_groups ++
        [RenderCmd.setVertexBuffer 0 vb, RenderCmd.setIndexBuffer ib,
         RenderCmd.drawIndexed 0 m.indices_length 1])
  | _, _ => none

/-- The capacity invariant of §3: each logical length stays within its
backing store. -/
def Mesh.inv (m : Mesh) : Prop :=
  m.vertices_length ≤ m.vertices.length ∧ m.indices_length ≤ m.indices.length

instance (m : Mesh) : Decidable m.inv := by
  unfold Mesh.inv
  infer_instance

/-! ## ShapeRenderer (`pi_scene_spine/src/shape_renderer.rs`) -/

/-- The `wgpu` blend factors used by `ShapeRenderer::new`. -/
inductive BlendFactor where
  | One
  | Zero
  deriving DecidableEq, Repr

/-- `ShapeRenderer` from `shape_renderer.rs`; external handle types
(texture key, blend state, pipeline key) are modelled as numeric handles. -/
structure ShapeRenderer where
  src_factor : BlendFactor
  dst_factor : BlendFactor
  shader : EShader
  meshes : List Mesh
  is_drawing : Bool
  draw_calls : ℕ
  vertices_length : ℕ
  indices_length : ℕ
  last_texture_key : Option ℕ
  attributes : List VertexAttribute
  mask_flag : ℚ × ℚ × ℚ × ℚ
  mvp_matrix : Matrix
  elements_per_vertex : ℕ
  blend : Option ℕ
  pipeline_key : Option ℕ
  vertex_index : ℕ
  deriving DecidableEq, Repr

/-- `ShapeRenderer::new`: a position+color layout (stride 6), `Colored`
shader, empty mesh pool, all counters zero. -/
def ShapeRenderer.new : ShapeRenderer :=
  { src_factor := BlendFactor.One
    dst_factor := BlendFactor.Zero
    shader := EShader.Colored
    meshes := []
    is_drawing := false
    draw_calls := 0
    vertices_length := 0
    indices_length := 0
    last_texture_key := none
    attributes := [VertexAttribute.position_2, VertexAttribute.color]
    mask_flag := (0, 0, 0, 0)
    mvp_matrix := Matrix.identity
    elements_per_vertex :=
      VertexAttribute.elements [VertexAttribute.position_2, VertexAttribute.color]
    blend := none
    pipeline_key := none
    vertex_index := 0 }

/-- The six sequential slot assignments performed by `ShapeRenderer::vertex`
starting at `idx`. -/
def writeSix (verts : List ℚ) (idx : ℕ) (x y cr cg cb ca : ℚ) : List ℚ :=
  (((((verts.set idx x).set (idx + 1) y).set (idx + 2) cr).set
    (idx + 3) cg).set (idx + 4) cb).set (idx + 5) ca

/-- `ShapeRenderer::vertex`: writes the six arguments into the mesh indexed
by `draw_calls` at the running cursor `vertex_index` and advances the cursor
by six (one slot per assignment in the source).  The `unwrap` on a missing
mesh and the slice-index panics are modelled as `none`. -/
def ShapeRenderer.vertex (r : ShapeRenderer) (x y cr cg cb ca : ℚ) :
    Option ShapeRenderer :=
  match r.meshes[r.draw_calls]? with
  | none => none
  | some mesh =>
      let idx := r.vertex_index
      if idx + 6 ≤ mesh.vertices.length then
        let verts := writeSix mesh.vertices idx x y cr cg cb ca
        some { r with
          meshes := r.meshes.set r.draw_calls { mesh with vertices := verts }
          vertex_index := idx + 6 }
      else none

/-- A mesh with room for eight floats, for the C8 counterexample. -/
def cexMesh8 : Mesh := { Mesh.new with vertices := List.replicate 8 (0 : ℚ) }

/-- A renderer in the drawing state whose configured stride is 8 but whose
`vertex` still advances the cursor by 6. -/
def cexRenderer : ShapeRenderer :=
  { ShapeRenderer.new with
    meshes := [cexMesh8]
    is_drawing := true
    elements_per_vertex := 8 }

/-- The identity material initializer, a concrete stand-in for the external
material system in witnesses. -/
def idMat : EShader → Material → Material := fun _ mt => mt

/-- A mesh whose initial state was produced by a large-stride `init`, for
exercising the no-reallocation branch. -/
def witMesh12 : Mesh := Mesh.init 1 idMat Mesh.new EShader.TwoColoredTextured

/-- A mesh with both GPU buffers present, one bind group and logical index
length 5, for exercising `draw`. -/
def witMeshDraw : Mesh :=
  { Mesh.new with
    vertices_buffer := some 3
    indices_buffer := some 4
    material := ⟨[9]⟩
    indices_length := 5 }

/-- The command list `draw` issues on `witMeshDraw`. -/
def witDrawCmds : List RenderCmd :=
  [RenderCmd.setBindGroup 0 9, RenderCmd.setVertexBuffer 0 3,
   RenderCmd.setIndexBuffer 4, RenderCmd.drawIndexed 0 5 1]

/-- A mesh with both buffers created by first writes, for the repeat-write
half of C5. -/
def witMeshBoth : Mesh :=
  (((Mesh.new.set_vertices ⟨0⟩ []).mesh).set_indices ⟨1⟩ []).mesh

/-- A mesh with room for six floats, for the C8 witness. -/
def witMesh6 : Mesh := { Mesh.new with vertices := List.replicate 6 (0 : ℚ) }

/-- A drawing renderer with the default stride and one mesh, for the C8
witness. -/
def witRenderer : ShapeRenderer :=
  { ShapeRenderer.new with meshes := [witMesh6], is_drawing := true }

/-- Length preservation of `vec_set` at offset 0 when the source fits. -/
theorem vec_set_length_zero {α : Type} (t s : List α) (h : s.length ≤ t.length) :
    (vec_set t s 0).length = t.length := by
  simp [vec_set]
  omega

/-- Length of the bind-group command list. -/
theorem bindGroupCmds_length (i : ℕ) (binds : List ℕ) :
    (bindGroupCmds i binds).length = binds.length := by
  induction binds generalizing i with
  | nil => rfl
  | cons b rest ih => simp [bindGroupCmds, ih]

/-- Pointwise description of the bind-group command list. -/
theorem bindGroupCmds_getElem (i : ℕ) (binds : List ℕ) (j : ℕ) :
    (bindGroupCmds i binds)[j]? =
      binds[j]?.map fun b => RenderCmd.setBindGroup (i + j) b := by
  induction binds generalizing i j with
  | nil => simp [bindGroupCmds]
  | cons b rest ih =>
      cases j with
      | zero => simp [bindGroupCmds]
      | succ j =>
          have hadd : i + 1 + j = i + (j + 1) := by omega
          simp only [bindGroupCmds, List.getElem?_cons_succ, ih (i + 1) j, hadd]

/-- C1 counterexample: the claim says an `Optimistic` `BoundingInfo` gets the
sphere-vs-frustum result alone, but on `cexInfo` (strategy `Optimistic`,
sphere test true) `is_in_frustum` still runs the box test and returns
false. -/
theorem claim_C1_cex :
    cexInfo.culling_strategy = ECullingStrategy.Optimistic ∧
    cexInfo.bounding_sphere.is_in_frustum cexFrustum = true ∧
    cexInfo.is_in_frustum cexFrustum = false := by
  refine ⟨rfl, ?_, ?_⟩
  · norm_num [BoundingSphere.is_in_frustum, FrustumPlanes.list, cexFrustum,
      cexPlaneX, cexPlaneTrivial, cexSphere, cexCorner, Plane.dotCoordinate,
      cexInfo]
  · norm_num [BoundingInfo.is_in_frustum, BoundingSphere.is_in_frustum,
      BoundingBox.is_in_frustum, FrustumPlanes.list, cexFrustum, cexInfo,
      cexPlaneX, cexPlaneTrivial, cexSphere, cexBox, cexCorner,
      Plane.dotCoordinate, List.replicate]

/-- C1 amended: `is_in_frustum` ignores `culling_strategy` entirely; for
every `BoundingInfo` (whether `Optimistic` or `STANDARD`) it returns false
when the sphere test fails and otherwise returns the box test result — i.e.
the sphere-then-box short-circuit conjunction. -/
theorem claim_C1_amended (b : BoundingInfo) (f : FrustumPlanes)
    (s : ECullingStrategy) :
    b.is_in_frustum f =
      (b.bounding_sphere.is_in_frustum f && b.bounding_box.is_in_frustum f) ∧
    BoundingInfo.is_in_frustum { b with culling_strategy := s } f =
      b.is_in_frustum f := by
  constructor
  · by_cases h : b.bounding_sphere.is_in_frustum f <;>
      simp [BoundingInfo.is_in_frustum, h]
  · rfl

/-- C2: `check_boundings` maps an input of length N to an output of length
N whose i-th entry is the independent `is_in_frustum` result of the i-th
input; the empty input yields the empty output. -/
theorem claim_C2 (bs : List BoundingInfo) (f : FrustumPlanes) (i : ℕ) :
    (check_boundings bs f).length = bs.length ∧
    (check_boundings bs f)[i]? = bs[i]?.map (fun b => b.is_in_frustum f) ∧
    check_boundings [] f = [] := by
  refine ⟨List.length_map _ _, ?_, rfl⟩
  simp [check_boundings]

/-- C3 counterexample: on the error path `set_vertices` does mutate prior state — the dirty flag is set to true before the capacity check, so a fresh mesh (dirty flag false) given an over-capacity slice gets the capacity error yet comes back with `dirty_vertices = true`. -/
theorem claim_C3_cex :
    (Mesh.new.set_vertices ⟨0⟩ [1]).res =
      Except.error ESpineError.MeshCanntStoreMoreThanMaxVertices ∧
    Mesh.new.dirty_vertices = false ∧
    (Mesh.new.set_vertices ⟨0⟩ [1]).mesh.dirty_vertices = true :=
  ⟨rfl, rfl, rfl⟩

/-- C3 amended: `set_vertices` with data of length equal to the capacity succeeds and sets the logical vertex length to that capacity; with a longer slice it returns the capacity-exceeded error and leaves all prior state unchanged except the dirty flag, which it sets unconditionally before the check (no truncation, no growth, no GPU operation, device untouched).  `set_indices` behaves the same for the index buffer. -/
theorem claim_C3_amended (m : Mesh) (dev : Device) (data : List ℚ) (idata : List ℕ) :
    (data.length = m.vertices.length →
      (m.set_vertices dev data).res = Except.ok () ∧
      (m.set_vertices dev data).mesh.vertices_length = m.vertices.length) ∧
    (data.length > m.vertices.length →
      (m.set_vertices dev data).res =
        Except.error ESpineError.MeshCanntStoreMoreThanMaxVertices ∧
      (m.set_vertices dev data).mesh = { m with dirty_vertices := true } ∧
      (m.set_vertices dev data).ops = [] ∧
      (m.set_vertices dev data).device = dev) ∧
    (idata.length = m.indices.length →
      (m.set_indices dev idata).res = Except.ok () ∧
      (m.set_indices dev idata).mesh.indices_length = m.indices.length) ∧
    (idata.length > m.indices.length →
      (m.set_indices dev idata).res =
        Except.error ESpineError.MeshCanntStoreMoreThanMaxVertices ∧
      (m.set_indices dev idata).mesh = { m with dirty_indices := true } ∧
      (m.set_indices dev idata).ops = [] ∧
      (m.set_indices dev idata).device = dev) := by
  refine ⟨fun h => ?_, fun h => ?_, fun h => ?_, fun h => ?_⟩
  · simp only [Mesh.set_vertices]
    rw [if_neg (by omega)]
    cases hb : m.vertices_buffer <;> simp [hb, h, Device.create_buffer]
  · simp only [Mesh.set_vertices]
    rw [if_pos (by simpa using h)]
    exact ⟨rfl, rfl, rfl, rfl⟩
  · simp only [Mesh.set_indices]
    rw [if_neg (by omega)]
    cases hb : m.indices_buffer <;> simp [hb, h, Device.create_buffer]
  · simp only [Mesh.set_indices]
    rw [if_pos (by simpa using h)]
    exact ⟨rfl, rfl, rfl, rfl⟩

/-- Witness for C3 at concrete inputs: length-equal writes on a fresh mesh succeed, over-capacity writes give the error-path state. -/
theorem claim_C3_witness :
    (Mesh.new.set_vertices ⟨0⟩ ([] : List ℚ)).res = Except.ok () ∧
    (Mesh.new.set_vertices ⟨0⟩ [1]).mesh =
      { Mesh.new with dirty_vertices := true } ∧
    (Mesh.new.set_indices ⟨0⟩ ([] : List ℕ)).res = Except.ok () ∧
    (Mesh.new.set_indices ⟨0⟩ [7]).mesh =
      { Mesh.new with dirty_indices := true } := by
  have h1 := claim_C3_amended Mesh.new ⟨0⟩ [] []
  have h2 := claim_C3_amended Mesh.new ⟨0⟩ [1] [7]
  exact ⟨(h1.1 rfl).1, (h2.2.1 (by decide)).2.1, (h1.2.2.1 rfl).1,
    (h2.2.2.2 (by decide)).2.1⟩

/-- C4: `init` with a shader whose per-vertex element count exceeds the mesh's previously recorded element count reallocates the backing storage to `MAX_VERTICES × new_stride` floats and `MAX_VERTICES × 3` indices, invalidates both GPU buffer handles and resets the logical lengths to 0; with an equal-or-smaller element count it leaves the backing storage and buffer handles untouched. -/
theorem claim_C4 (maxV : ℕ) (initMat : EShader → Material → Material)
    (m : Mesh) (shader : EShader) :
    (VertexAttribute.elements (Mesh.attributes_for shader) >
        m.element_per_vertex →
      (Mesh.init maxV initMat m shader).vertices.length =
        maxV * VertexAttribute.elements (Mesh.attributes_for shader) ∧
      (Mesh.init maxV initMat m shader).indices.length = maxV * 3 ∧
      (Mesh.init maxV initMat m shader).vertices_buffer = none ∧
      (Mesh.init maxV initMat m shader).indices_buffer = none ∧
      (Mesh.init maxV initMat m shader).vertices_length = 0 ∧
      (Mesh.init maxV initMat m shader).indices_length = 0) ∧
    (VertexAttribute.elements (Mesh.attributes_for shader) ≤
        m.element_per_vertex →
      (Mesh.init maxV initMat m shader).vertices = m.vertices ∧
      (Mesh.init maxV initMat m shader).indices = m.indices ∧
      (Mesh.init maxV initMat m shader).vertices_buffer = m.vertices_buffer ∧
      (Mesh.init maxV initMat m shader).indices_buffer = m.indices_buffer) := by
  constructor
  · intro h
    simp only [Mesh.init]
    rw [if_pos (show VertexAttribute.elements (Mesh.attributes_for shader) >
      m.element_per_vertex from h)]
    simp
  · intro h
    simp only [Mesh.init]
    rw [if_neg (show ¬ VertexAttribute.elements (Mesh.attributes_for shader) >
      m.element_per_vertex by omega)]
    exact ⟨rfl, rfl, rfl, rfl⟩

/-- Witness for C4 at concrete inputs: a growing `init` allocates `1 × 6` floats; a shrinking `init` on a stride-12 mesh keeps its storage. -/
theorem claim_C4_witness :
    (Mesh.init 1 idMat Mesh.new EShader.Colored).vertices.length = 1 * 6 ∧
    (Mesh.init 1 idMat witMesh12 EShader.Colored).vertices =
      witMesh12.vertices := by
  have h1 := claim_C4 1 idMat Mesh.new EShader.Colored
  have h2 := claim_C4 1 idMat witMesh12 EShader.Colored
  exact ⟨(h1.1 (by decide)).1, (h2.2 (by decide)).1⟩

/-- C5: once `set_vertices` has a buffer handle, every call keeps that same handle and a successful call issues only an in-place write to it; when no handle exists yet, a successful call creates exactly one fresh buffer.  The same holds for `set_indices` and the index buffer: handles are never destroyed and recreated by the write path. -/
theorem claim_C5 (m : Mesh) (dev : Device) (data : List ℚ) (idata : List ℕ)
    (b : ℕ) :
    (m.vertices_buffer = some b →
      (m.set_vertices dev data).mesh.vertices_buffer = some b ∧
      ((m.set_vertices dev data).res = Except.ok () →
        (m.set_vertices dev data).ops = [GpuOp.writeBuffer b])) ∧
    (m.vertices_buffer = none →
      (m.set_vertices dev data).res = Except.ok () →
      (m.set_vertices dev data).mesh.vertices_buffer = some dev.next_buffer ∧
      (m.set_vertices dev data).ops = [GpuOp.createBuffer dev.next_buffer]) ∧
    (m.indices_buffer = some b →
      (m.set_indices dev idata).mesh.indices_buffer = some b ∧
      ((m.set_indices dev idata).res = Except.ok () →
        (m.set_indices dev idata).ops = [GpuOp.writeBuffer b])) ∧
    (m.indices_buffer = none →
      (m.set_indices dev idata).res = Except.ok () →
      (m.set_indices dev idata).mesh.indices_buffer = some dev.next_buffer ∧
      (m.set_indices dev idata).ops = [GpuOp.createBuffer dev.next_buffer]) := by
  refine ⟨fun hb => ?_, fun hb hok => ?_, fun hb => ?_, fun hb hok => ?_⟩
  · simp only [Mesh.set_vertices]
    by_cases hlen : data.length > m.vertices.length
    · rw [if_pos hlen]
      exact ⟨hb, fun hok => absurd hok (by simp)⟩
    · rw [if_neg hlen]
      simp [hb]
  · simp only [Mesh.set_vertices] at hok ⊢
    by_cases hlen : data.length > m.vertices.length
    · rw [if_pos hlen] at hok
      exact absurd hok (by simp)
    · rw [if_neg hlen]
      simp [hb, Device.create_buffer]
  · simp only [Mesh.set_indices]
    by_cases hlen : idata.length > m.indices.length
    · rw [if_pos hlen]
      exact ⟨hb, fun hok => absurd hok (by simp)⟩
    · rw [if_neg hlen]
      simp [hb]
  · simp only [Mesh.set_indices] at hok ⊢
    by_cases hlen : idata.length > m.indices.length
    · rw [if_pos hlen] at hok
      exact absurd hok (by simp)
    · rw [if_neg hlen]
      simp [hb, Device.create_buffer]

/-- Witness for C5 at concrete inputs: the first write creates buffer 0, repeat writes on a mesh with buffers 0 and 1 only write in place. -/
theorem claim_C5_witness :
    (Mesh.new.set_vertices ⟨0⟩ ([] : List ℚ)).mesh.vertices_buffer =
      some 0 ∧
    (Mesh.new.set_vertices ⟨0⟩ ([] : List ℚ)).ops = [GpuOp.createBuffer 0] ∧
    (witMeshBoth.set_vertices ⟨5⟩ ([] : List ℚ)).mesh.vertices_buffer =
      some 0 ∧
    (witMeshBoth.set_vertices ⟨5⟩ ([] : List ℚ)).ops =
      [GpuOp.writeBuffer 0] ∧
    (witMeshBoth.set_indices ⟨5⟩ ([] : List ℕ)).mesh.indices_buffer =
      some 1 ∧
    (witMeshBoth.set_indices ⟨5⟩ ([] : List ℕ)).ops =
      [GpuOp.writeBuffer 1] := by
  have hA := claim_C5 Mesh.new ⟨0⟩ [] [] 0
  have hB := claim_C5 witMeshBoth ⟨5⟩ [] [] 0
  have hC := claim_C5 witMeshBoth ⟨5⟩ [] [] 1
  refine ⟨(hA.2.1 rfl rfl).1, (hA.2.1 rfl rfl).2, (hB.1 rfl).1,
    (hB.1 rfl).2 rfl, (hC.2.2.1 rfl).1, (hC.2.2.1 rfl).2 rfl⟩

/-- C6 counterexample: `set_vertices_length` does not preserve the length-within-capacity invariant — a fresh mesh satisfies it, and a single `set_vertices_length 5` call on it (capacity 0) violates it, since the setter stores any length without a capacity check. -/
theorem claim_C6_cex :
    Mesh.inv Mesh.new ∧ ¬ Mesh.inv (Mesh.new.set_vertices_length 5) := by
  constructor
  · exact ⟨Nat.le_refl 0, Nat.le_refl 0⟩
  · intro h
    exact absurd h.1 (by decide)

/-- C6 amended: the invariant `logical length ≤ capacity` holds for a fresh mesh, is established by `init`, and is preserved by `set_vertices` and `set_indices` on both their success and error paths; the raw length setters `set_vertices_length`/`set_indices_length` are excluded, as they perform no check. -/
theorem claim_C6_amended (maxV : ℕ) (initMat : EShader → Material → Material)
    (m : Mesh) (shader : EShader) (dev : Device) (data : List ℚ)
    (idata : List ℕ) :
    Mesh.inv Mesh.new ∧
    Mesh.inv (Mesh.init maxV initMat m shader) ∧
    (m.inv → Mesh.inv (m.set_vertices dev data).mesh) ∧
    (m.inv → Mesh.inv (m.set_indices dev idata).mesh) := by
  refine ⟨⟨Nat.le_refl 0, Nat.le_refl 0⟩, ⟨Nat.zero_le _, Nat.zero_le _⟩,
    fun h => ?_, fun h => ?_⟩
  · simp only [Mesh.set_vertices]
    by_cases hlen : data.length > m.vertices.length
    · rw [if_pos hlen]
      exact h
    · rw [if_neg hlen]
      have hv : (vec_set m.vertices data 0).length = m.vertices.length :=
        vec_set_length_zero m.vertices data (by omega)
      cases hb : m.vertices_buffer <;>
        exact ⟨by simp [hb, hv]; omega, h.2⟩
  · simp only [Mesh.set_indices]
    by_cases hlen : idata.length > m.indices.length
    · rw [if_pos hlen]
      exact h
    · rw [if_neg hlen]
      have hv : (vec_set m.indices idata 0).length = m.indices.length :=
        vec_set_length_zero m.indices idata (by omega)
      cases hb : m.indices_buffer <;>
        exact ⟨h.1, by simp [hb, hv]; omega⟩

/-- Witness for C6 at concrete inputs: the invariant holds after writes to and initialization of a fresh mesh. -/
theorem claim_C6_witness :
    Mesh.inv (Mesh.new.set_vertices ⟨0⟩ ([] : List ℚ)).mesh ∧
    Mesh.inv (Mesh.new.set_indices ⟨0⟩ ([] : List ℕ)).mesh ∧
    Mesh.inv (Mesh.init 1 idMat Mesh.new EShader.Colored) := by
  have h := claim_C6_amended 1 idMat Mesh.new EShader.Colored ⟨0⟩ [] []
  exact ⟨h.2.2.1 ⟨Nat.le_refl 0, Nat.le_refl 0⟩,
    h.2.2.2 ⟨Nat.le_refl 0, Nat.le_refl 0⟩, h.2.1⟩

/-- C7: `draw` fails (source panics via `unwrap`) exactly when the vertex or index buffer was never created; with both buffers present it binds the material's bind groups sequentially from group index 0 (the j-th command is `set_bind_group(j, groups[j])`), binds the vertex and index buffers, and issues exactly one indexed draw over `0..indices_length` with one instance. -/
theorem claim_C7 (m : Mesh) (vb ib : ℕ) (j bg : ℕ) (cmds : List RenderCmd) :
    (m.vertices_buffer = none ∨ m.indices_buffer = none → m.draw = none) ∧
    (m.vertices_buffer = some vb → m.indices_buffer = some ib →
      m.draw = some (bindGroupCmds 0 m.material.bind_groups ++
        [RenderCmd.setVertexBuffer 0 vb, RenderCmd.setIndexBuffer ib,
         RenderCmd.drawIndexed 0 m.indices_length 1])) ∧
    (m.draw = some cmds → m.material.bind_groups[j]? = some bg →
      cmds[j]? = some (RenderCmd.setBindGroup j bg)) := by
  refine ⟨fun h => ?_, fun h1 h2 => ?_, fun hd hj => ?_⟩
  · unfold Mesh.draw
    rcases h with h | h
    · simp [h]
    · cases hv : m.vertices_buffer <;> simp [h, hv]
  · unfold Mesh.draw
    simp [h1, h2]
  · have hlt : j < m.material.bind_groups.length := by
      by_contra hc
      rw [List.getElem?_eq_none (by omega)] at hj
      exact Option.noConfusion hj
    unfold Mesh.draw at hd
    cases hv : m.vertices_buffer with
    | none => rw [hv] at hd; exact Option.noConfusion hd
    | some vb2 =>
        cases hi : m.indices_buffer with
        | none => rw [hv, hi] at hd; exact Option.noConfusion hd
        | some ib2 =>
            rw [hv, hi] at hd
            have hcmds := (Option.some.injEq _ _).mp hd
            subst hcmds
            rw [List.getElem?_append_left (by rw [bindGroupCmds_length]; exact hlt)]
            rw [bindGroupCmds_getElem 0 m.material.bind_groups j, hj]
            simp

/-- Witness for C7 at concrete inputs: a bufferless mesh cannot draw; a fully set-up mesh draws the expected command list with its bind group at index 0. -/
theorem claim_C7_witness :
    Mesh.new.draw = none ∧
    witMeshDraw.draw = some witDrawCmds ∧
    witDrawCmds[0]? = some (RenderCmd.setBindGroup 0 9) := by
  have h1 := claim_C7 Mesh.new 0 0 0 0 []
  have h2 := claim_C7 witMeshDraw 3 4 0 9 witDrawCmds
  exact ⟨h1.1 (Or.inl rfl), rfl, h2.2.2 rfl rfl⟩

/-- C8 counterexample: a renderer in the drawing state with a mesh at `draw_calls` and the cursor in range, but `elements_per_vertex = 8`: `vertex` still advances the cursor by 6, not by the renderer's stride 8, refuting the advance-by-stride part of the claim. -/
theorem claim_C8_cex :
    cexRenderer.is_drawing = true ∧
    cexRenderer.draw_calls < cexRenderer.meshes.length ∧
    cexRenderer.vertex_index = 0 ∧
    cexRenderer.elements_per_vertex = 8 ∧
    (cexRenderer.vertex 1 2 3 4 5 6).map (fun r => r.vertex_index) = some 6 := by
  refine ⟨rfl, by decide, rfl, rfl, rfl⟩

/-- C8 amended: with a mesh present at index `draw_calls` and the cursor plus six slots within that mesh's storage, `vertex(x, y, r, g, b, a)` writes the six floats at the running cursor of the current mesh and advances the cursor by exactly 6 — the stride of the position+color layout that `new` installs (`new` sets `elements_per_vertex = 6`, so there the advance equals the stride) — leaving every other renderer and mesh field unchanged. -/
theorem claim_C8_amended (r : ShapeRenderer) (x y cr cg cb ca : ℚ)
    (mesh : Mesh) (hm : r.meshes[r.draw_calls]? = some mesh)
    (hcap : r.vertex_index + 6 ≤ mesh.vertices.length) :
    ∃ r2, r.vertex x y cr cg cb ca = some r2 ∧
      r2.vertex_index = r.vertex_index + 6 ∧
      r2.meshes = r.meshes.set r.draw_calls
        { mesh with
          vertices := writeSix mesh.vertices r.vertex_index x y cr cg cb ca } ∧
      r2.draw_calls = r.draw_calls ∧
      r2.shader = r.shader ∧
      r2.is_drawing = r.is_drawing ∧
      r2.elements_per_vertex = r.elements_per_vertex ∧
      r2.attributes = r.attributes ∧
      r2.vertices_length = r.vertices_length ∧
      r2.indices_length = r.indices_length ∧
      ShapeRenderer.new.elements_per_vertex = 6 := by
  have hred : r.vertex x y cr cg cb ca = some { r with
      meshes := r.meshes.set r.draw_calls
        { mesh with
          vertices := writeSix mesh.vertices r.vertex_index x y cr cg cb ca }
      vertex_index := r.vertex_index + 6 } := by
    unfold ShapeRenderer.vertex
    rw [hm]
    exact if_pos hcap
  exact ⟨_, hred, rfl, rfl, rfl, rfl, rfl, rfl, rfl, rfl, rfl, rfl⟩

/-- Witness for C8 at a concrete renderer: `vertex` succeeds and advances the cursor from 0 to 6. -/
theorem claim_C8_witness :
    ∃ r2, witRenderer.vertex 1 2 3 4 5 6 = some r2 ∧
      r2.vertex_index = witRenderer.vertex_index + 6 := by
  obtain ⟨r2, ha, hb, -⟩ :=
    claim_C8_amended witRenderer 1 2 3 4 5 6 witMesh6 rfl (by decide)
  exact ⟨r2, ha, hb⟩

/-- C9: a freshly constructed mesh has zero vertex and index capacity and no GPU buffers, so `set_vertices` (resp. `set_indices`) with any non-empty slice returns the capacity-exceeded error. -/
theorem claim_C9 (dev : Device) (data : List ℚ) (idata : List ℕ) :
    Mesh.new.vertices.length = 0 ∧
    Mesh.new.indices.length = 0 ∧
    Mesh.new.vertices_buffer = none ∧
    Mesh.new.indices_buffer = none ∧
    (data ≠ [] →
      (Mesh.new.set_vertices dev data).res =
        Except.error ESpineError.MeshCanntStoreMoreThanMaxVertices) ∧
    (idata ≠ [] →
      (Mesh.new.set_indices dev idata).res =
        Except.error ESpineError.MeshCanntStoreMoreThanMaxVertices) := by
  refine ⟨rfl, rfl, rfl, rfl, fun h => ?_, fun h => ?_⟩
  · simp only [Mesh.set_vertices]
    rw [if_pos (by simpa using List.length_pos.mpr h)]
  · simp only [Mesh.set_indices]
    rw [if_pos (by simpa using List.length_pos.mpr h)]

/-- Witness for C9 at concrete inputs: one-element writes on a fresh mesh produce the capacity error. -/
theorem claim_C9_witness :
    (Mesh.new.set_vertices ⟨0⟩ [1]).res =
      Except.error ESpineError.MeshCanntStoreMoreThanMaxVertices ∧
    (Mesh.new.set_indices ⟨0⟩ [2]).res =
      Except.error ESpineError.MeshCanntStoreMoreThanMaxVertices := by
  have h := claim_C9 ⟨0⟩ [1] [2]
  exact ⟨h.2.2.2.2.1 (by simp), h.2.2.2.2.2 (by simp)⟩

/-- C10: `BoundingInfo::update` recomputes only the bounding box (reset from
the cached extents) and the bounding sphere; minimum, maximum, the three
cached directions and the strategy are untouched — unlike `reset`, which
rewrites minimum, maximum and the direction vectors. -/
theorem claim_C10 (sq : ℚ → ℚ) (b : BoundingInfo) (w : Matrix)
    (mn mx : Vector3) :
    (b.update sq w).minimum = b.minimum ∧
    (b.update sq w).maximum = b.maximum ∧
    (b.update sq w).direction0 = b.direction0 ∧
    (b.update sq w).direction1 = b.direction1 ∧
    (b.update sq w).direction2 = b.direction2 ∧
    (b.update sq w).culling_strategy = b.culling_strategy ∧
    (b.update sq w).bounding_box = b.bounding_box.reset b.minimum b.maximum w ∧
    (b.update sq w).bounding_sphere = BoundingSphere.update sq b.bounding_sphere w ∧
    (b.reset sq mn mx w).minimum = mn ∧
    (b.reset sq mn mx w).maximum = mx ∧
    (b.reset sq mn mx w).direction0 = w.row0 ∧
    (b.reset sq mn mx w).direction1 = w.row1 ∧
    (b.reset sq mn mx w).direction2 = w.row2 :=
  ⟨rfl, rfl, rfl, rfl, rfl, rfl, rfl, rfl, rfl, rfl, rfl, rfl, rfl⟩

end PiScene
